import Mathlib

/-!
Shallow embedding of the sidecar supervisor in
`src/apps/onios/tauri/src-tauri/src/main.rs`.

The program keeps two pieces of process-wide state:
  `static SERVER_PROCESS: Mutex<Option<Child>> = Mutex::new(None);`
  `static SERVER_PORT: Mutex<u16> = Mutex::new(5173);`
and exposes three operations: `start_node_server`, `stop_node_server`
and the query command `get_server_port`.

The embedding makes the external world an explicit parameter (`Env`):
the result of spawning the child, the filesystem existence check used
by path resolution, the directory of the running executable, and the
sequence of answers the health endpoint gives to the poll loop
(indexed by poll iteration) together with the duration of each HTTP
request in milliseconds.  The loop body sleeps 300 ms and then issues
one blocking GET, so the wall-clock spent by iteration `i` is
`300 + req_ms i` milliseconds; `Instant::elapsed` at the loop head is
the sum of the durations of the completed iterations.
-/

/-- A spawned child process handle (`std::process::Child`); we keep
only the process id. -/
structure Child where
  pid : Nat
deriving DecidableEq, Repr

/-- The process-wide state: the `SERVER_PROCESS` slot and the
`SERVER_PORT` slot. -/
structure SupState where
  server_process : Option Child
  server_port : Nat
deriving DecidableEq, Repr

/-- The state at program start: `Mutex::new(None)` and
`Mutex::new(5173)`. -/
def initState : SupState :=
  { server_process := none, server_port := 5173 }

/-- `Duration::from_secs(15)` in milliseconds. -/
def timeout_ms : Nat := 15000

/-- `Duration::from_millis(300)`. -/
def poll_interval_ms : Nat := 300

/-- `reqwest::StatusCode::is_success`: code in 200..=299. -/
def status_is_success (st : Nat) : Bool :=
  decide (200 ≤ st) && decide (st < 300)

/-- Outcome of one `reqwest::blocking::get`: `none` is a connection
error (the `Err` arm of `if let Ok(resp)`), `some st` a response with
HTTP status `st`.  The probe counts as ready iff a response arrived
and its status is a success status. -/
def resp_is_success : Option Nat → Bool
  | some st => status_is_success st
  | none => false

/-- The error string of the readiness-timeout path. -/
def timeout_err : String :=
  "Node server did not become ready within 15 seconds"

/-- Observable process-level actions, recorded as a ghost trace so
that claims about what `start`/`stop` do to the child can be stated. -/
inductive Event where
  | spawned (pid : Nat)
  | killed (pid : Nat)
  | waited (pid : Nat)
deriving DecidableEq, Repr

/-- The external world as seen by `start_node_server`. -/
structure Env where
  /-- `cfg!(debug_assertions)` -/
  debug : Bool
  /-- `std::env::current_exe()?.parent().to_path_buf()`, or the error
  text of `current_exe` -/
  current_exe_dir : Except String String
  /-- `std::path::Path::exists` -/
  path_exists : String → Bool
  /-- `Command::new("node").arg("--experimental-modules").arg(script)
  .stdout(piped).stderr(piped).spawn()`, keyed by the script path; an
  error carries the OS error text -/
  spawn : String → Except String Child
  /-- answer of the GET to `http://127.0.0.1:5173/api/oni/status` at
  poll iteration `i` -/
  probe : Nat → Option Nat
  /-- duration in ms of the GET at poll iteration `i` -/
  req_ms : Nat → Nat

/-- Path resolution of `start_node_server` (main.rs lines 20-37):
dev mode takes the fixed relative path; production mode joins the
executable directory with the bundled-resources candidate and falls
back to the sibling `bin` candidate when the first does not exist. -/
def resolve_server_script (env : Env) : Except String String :=
  if env.debug then
    Except.ok "../../electron/server.mjs"
  else
    match env.current_exe_dir with
    | Except.error e => Except.error e
    | Except.ok exe_dir =>
        let resources := exe_dir ++ "/../Resources/bin/server.mjs"
        if env.path_exists resources then Except.ok resources
        else Except.ok (exe_dir ++ "/bin/server.mjs")

/-- The readiness poll loop (main.rs lines 53-66), instrumented: the
value is `(result, number of probes issued, elapsed at return)`.
`elapsed` is `start.elapsed()` at the loop-condition check; each
iteration sleeps 300 ms and then issues one GET, so it advances the
clock by `poll_interval_ms + req_ms i`. -/
def pollLoopT (probe : Nat → Option Nat) (req_ms : Nat → Nat) (port : Nat)
    (i : Nat) (elapsed : Nat) : Except String Nat × Nat × Nat :=
  if h : elapsed < timeout_ms then
    if resp_is_success (probe i) then
      (Except.ok port, 1, elapsed + poll_interval_ms + req_ms i)
    else
      let r := pollLoopT probe req_ms port (i + 1)
        (elapsed + poll_interval_ms + req_ms i)
      (r.1, r.2.1 + 1, r.2.2)
  else
    (Except.error timeout_err, 0, elapsed)
termination_by timeout_ms - elapsed
decreasing_by
  simp only [timeout_ms, poll_interval_ms] at *
  omega

/-- The result of the poll loop as the source returns it. -/
def pollLoop (probe : Nat → Option Nat) (req_ms : Nat → Nat) (port : Nat)
    (i : Nat) (elapsed : Nat) : Except String Nat :=
  (pollLoopT probe req_ms port i elapsed).1

/-- `start_node_server` (main.rs lines 14-67) as a state transformer:
resolve the script path, spawn, on success store the child in
`SERVER_PROCESS` and `5173` in `SERVER_PORT`, then run the readiness
poll.  Returns `(result, new state, ghost trace of process events)`. -/
def start_node_server (env : Env) (s : SupState) :
    Except String Nat × SupState × List Event :=
  let port : Nat := 5173
  match resolve_server_script env with
  | Except.error e => (Except.error e, s, [])
  | Except.ok script =>
      match env.spawn script with
      | Except.error e =>
          (Except.error ("Failed to start Node server: " ++ e), s, [])
      | Except.ok child =>
          let s1 : SupState :=
            { server_process := some child, server_port := port }
          (pollLoop env.probe env.req_ms port 0 0, s1,
            [Event.spawned child.pid])

/-- `stop_node_server` (main.rs lines 70-79): if a child is tracked,
kill it and wait for it (both results discarded: `killOk`/`waitOk`
say whether the OS calls succeeded and are ignored), then clear the
slot unconditionally.  Returns the new state and the ghost trace. -/
def stop_node_server (killOk waitOk : Bool) (s : SupState) :
    SupState × List Event :=
  match s.server_process with
  | some child =>
      ({ s with server_process := none },
        [Event.killed child.pid, Event.waited child.pid])
  | none => ({ s with server_process := none }, [])

/-- `get_server_port` (main.rs lines 81-84). -/
def get_server_port (s : SupState) : Nat :=
  s.server_port

/-- One externally triggered operation on the supervisor state. -/
inductive Op where
  | op_start (env : Env)
  | op_stop (killOk waitOk : Bool)

/-- Run a sequence of operations from a state, keeping only the state. -/
def runOps : SupState → List Op → SupState
  | s, [] => s
  | s, Op.op_start env :: rest => runOps (start_node_server env s).2.1 rest
  | s, Op.op_stop k w :: rest => runOps (stop_node_server k w s).1 rest

/-- `start.elapsed()` at the head of poll iteration `j` when the loop
began at iteration `i`: the sum of `poll_interval_ms + req_ms k` over
the completed iterations `i, i+1, ..., i+j-1`. -/
def partialElapsed (req_ms : Nat → Nat) (i : Nat) : Nat → Nat
  | 0 => 0
  | j + 1 => poll_interval_ms + req_ms i + partialElapsed req_ms (i + 1) j

/-- `start.elapsed()` at the head of poll iteration `j` of a loop that
began at iteration 0. -/
def elapsedBefore (req_ms : Nat → Nat) (j : Nat) : Nat :=
  partialElapsed req_ms 0 j

theorem pollLoopT_ok (probe : Nat → Option Nat) (req : Nat → Nat) (port : Nat) :
    ∀ (j i e : Nat),
      (∀ k, k < j → resp_is_success (probe (i + k)) = false) →
      resp_is_success (probe (i + j)) = true →
      e + partialElapsed req i j < timeout_ms →
      pollLoopT probe req port i e =
        (Except.ok port, j + 1, e + partialElapsed req i (j + 1)) := by
  intro j
  induction j with
  | zero =>
      intro i e _ hsucc hlt
      simp only [Nat.add_zero] at hsucc
      simp only [partialElapsed, Nat.add_zero] at hlt
      rw [pollLoopT]
      simp [hlt, hsucc, partialElapsed, Nat.add_assoc]
  | succ j ih =>
      intro i e hfail hsucc hlt
      have h0 : resp_is_success (probe i) = false := by
        have := hfail 0 (Nat.succ_pos j)
        simpa using this
      have he : e < timeout_ms := by
        have : 0 < partialElapsed req i (j + 1) := by
          simp [partialElapsed, poll_interval_ms]
        omega
      rw [pollLoopT]
      simp only [he, dif_pos, h0, Bool.false_eq_true, if_false]
      have ih2 := ih (i + 1) (e + poll_interval_ms + req i)
        (by
          intro k hk
          have := hfail (k + 1) (Nat.succ_lt_succ hk)
          simpa [Nat.add_assoc, Nat.add_comm 1 k] using this)
        (by
          have : i + 1 + j = i + (j + 1) := by omega
          rw [this]; exact hsucc)
        (by
          simp only [partialElapsed] at hlt
          omega)
      rw [ih2]
      refine Prod.ext rfl (Prod.ext rfl ?_)
      simp only [partialElapsed]
      omega

theorem pollLoopT_timeout_aux (probe : Nat → Option Nat) (req : Nat → Nat) (port : Nat) :
    ∀ (n i e : Nat), timeout_ms - e ≤ n →
      (∀ k, e + partialElapsed req i k < timeout_ms →
        resp_is_success (probe (i + k)) = false) →
      (pollLoopT probe req port i e).1 = Except.error timeout_err := by
  intro n
  induction n with
  | zero =>
      intro i e hn _
      have he : ¬ e < timeout_ms := by omega
      rw [pollLoopT]
      simp [he]
  | succ n ih =>
      intro i e hn hall
      by_cases he : e < timeout_ms
      · have h0 : resp_is_success (probe i) = false := by
          have := hall 0 (by simp [partialElapsed]; omega)
          simpa using this
        rw [pollLoopT]
        simp only [he, dif_pos, h0, Bool.false_eq_true, if_false]
        apply ih (i + 1) (e + poll_interval_ms + req i)
        · have hp : poll_interval_ms = 300 := rfl
          omega
        · intro k hk
          have := hall (k + 1)
            (by simp only [partialElapsed]; omega)
          have hi : i + (k + 1) = i + 1 + k := by omega
          rwa [hi] at this
      · rw [pollLoopT]
        simp [he]

theorem pollLoop_timeout (probe : Nat → Option Nat) (req : Nat → Nat) (port : Nat)
    (hall : ∀ k, elapsedBefore req k < timeout_ms →
      resp_is_success (probe k) = false) :
    pollLoop probe req port 0 0 = Except.error timeout_err := by
  apply pollLoopT_timeout_aux probe req port timeout_ms 0 0 (by omega)
  intro k hk
  have := hall k (by simpa [elapsedBefore] using hk)
  simpa using this

/-- Unfolding of `start_node_server` on the successful-spawn path. -/
theorem start_spawn_ok (env : Env) (s : SupState) (script : String) (c : Child)
    (hres : resolve_server_script env = Except.ok script)
    (hsp : env.spawn script = Except.ok c) :
    start_node_server env s =
      (pollLoop env.probe env.req_ms 5173 0 0,
        { server_process := some c, server_port := 5173 },
        [Event.spawned c.pid]) := by
  simp [start_node_server, hres, hsp]

/-- When the very first probe answers with a success status, the whole
of `start_node_server` succeeds and the poll loop made exactly one
probe. -/
theorem start_first_ok (env : Env) (s : SupState) (script : String) (c : Child)
    (hres : resolve_server_script env = Except.ok script)
    (hsp : env.spawn script = Except.ok c)
    (hp : resp_is_success (env.probe 0) = true) :
    start_node_server env s =
      (Except.ok 5173,
        { server_process := some c, server_port := 5173 },
        [Event.spawned c.pid]) := by
  have h := pollLoopT_ok env.probe env.req_ms 5173 0 0 0
    (fun k hk => absurd hk (Nat.not_lt_zero k))
    (by simpa using hp)
    (by simp [partialElapsed, timeout_ms])
  rw [start_spawn_ok env s script c hres hsp]
  simp [pollLoop, h]

/-- A development-mode environment whose spawn succeeds (pid 7) and
whose health endpoint answers 200 from the first probe on. -/
def envReady : Env :=
  { debug := true
    current_exe_dir := Except.ok "/opt/onios"
    path_exists := fun _ => false
    spawn := fun _ => Except.ok { pid := 7 }
    probe := fun _ => some 200
    req_ms := fun _ => 0 }

/-- A development-mode environment whose spawn succeeds (pid 7) but
whose health endpoint never answers (connection refused forever). -/
def envTimeout : Env :=
  { debug := true
    current_exe_dir := Except.ok "/opt/onios"
    path_exists := fun _ => false
    spawn := fun _ => Except.ok { pid := 7 }
    probe := fun _ => none
    req_ms := fun _ => 0 }

/-- A development-mode environment whose spawn fails with an OS error
(invalid executable path). -/
def envSpawnFail : Env :=
  { debug := true
    current_exe_dir := Except.ok "/opt/onios"
    path_exists := fun _ => false
    spawn := fun _ => Except.error "No such file or directory (os error 2)"
    probe := fun _ => none
    req_ms := fun _ => 0 }

/-- A production-mode environment in which the bundled-resources
candidate exists. -/
def envProd : Env :=
  { debug := false
    current_exe_dir := Except.ok "/Applications/OniOS.app/Contents/MacOS"
    path_exists := fun _ => true
    spawn := fun _ => Except.ok { pid := 9 }
    probe := fun _ => some 200
    req_ms := fun _ => 0 }

/-- C1: after a successful spawn, the poll loop returns `Ok 5173` as
soon as a probe with a successful HTTP status is reached within the
15-second budget (all earlier probes having failed), and if every
probe issued inside the budget fails, it returns the distinct
readiness-timeout error instead of hanging: the loop is a total
function. -/
theorem C1_readiness_protocol (env : Env) (s : SupState) (script : String) (c : Child)
    (hres : resolve_server_script env = Except.ok script)
    (hsp : env.spawn script = Except.ok c) :
    ((∀ k, elapsedBefore env.req_ms k < timeout_ms →
        resp_is_success (env.probe k) = false) →
      (start_node_server env s).1 = Except.error timeout_err)
    ∧ (∀ j, (∀ k, k < j → resp_is_success (env.probe k) = false) →
        resp_is_success (env.probe j) = true →
        elapsedBefore env.req_ms j < timeout_ms →
        (start_node_server env s).1 = Except.ok 5173) := by
  rw [start_spawn_ok env s script c hres hsp]
  constructor
  · intro hall
    exact pollLoop_timeout env.probe env.req_ms 5173 hall
  · intro j hfail hsucc hlt
    have h := pollLoopT_ok env.probe env.req_ms 5173 j 0 0
      (by intro k hk; simpa using hfail k hk)
      (by simpa using hsucc)
      (by simpa [elapsedBefore] using hlt)
    simp [pollLoop, h]

/-- C1 witness: in `envTimeout` every probe fails, and `start` returns
the readiness-timeout error. -/
theorem C1_readiness_protocol_witness :
    (start_node_server envTimeout initState).1 = Except.error timeout_err :=
  (C1_readiness_protocol envTimeout initState "../../electron/server.mjs"
    { pid := 7 } rfl rfl).1 (fun _ _ => rfl)

/-- C2: a spawn failure makes `start_node_server` return an error that
wraps the OS error text, within that call, and leaves the state
untouched: no handle is stored and no process event happens. -/
theorem C2_spawn_failure (env : Env) (s : SupState) (script osErr : String)
    (hres : resolve_server_script env = Except.ok script)
    (hsp : env.spawn script = Except.error osErr) :
    (start_node_server env s).1 =
      Except.error ("Failed to start Node server: " ++ osErr)
    ∧ (start_node_server env s).2.1 = s
    ∧ (start_node_server env s).2.2 = [] := by
  simp [start_node_server, hres, hsp]

/-- C2 witness: a concrete invalid-path spawn failure. -/
theorem C2_spawn_failure_witness :
    (start_node_server envSpawnFail initState).1 =
      Except.error
        "Failed to start Node server: No such file or directory (os error 2)"
    ∧ (start_node_server envSpawnFail initState).2.1 = initState
    ∧ (start_node_server envSpawnFail initState).2.2 = [] :=
  C2_spawn_failure envSpawnFail initState "../../electron/server.mjs"
    "No such file or directory (os error 2)" rfl rfl

/-- C3: `stop_node_server` never surfaces an error (its type has no
error component), its outcome does not depend on whether the kill or
the wait succeeded, it clears the slot, it kills and waits on a
tracked child, it is a no-op on an empty slot, and a second call
leaves the state of the first call unchanged and performs no process
event. -/
theorem C3_stop_idempotent (k1 w1 k2 w2 : Bool) (s : SupState) :
    stop_node_server k1 w1 s = stop_node_server k2 w2 s
    ∧ (stop_node_server k1 w1 s).1.server_process = none
    ∧ (∀ c, s.server_process = some c →
        (stop_node_server k1 w1 s).2 =
          [Event.killed c.pid, Event.waited c.pid])
    ∧ (s.server_process = none → stop_node_server k1 w1 s = (s, []))
    ∧ stop_node_server k2 w2 (stop_node_server k1 w1 s).1 =
        ((stop_node_server k1 w1 s).1, []) := by
  obtain ⟨sp, pt⟩ := s
  cases sp <;> simp [stop_node_server]

/-- C3 witness: stopping a state that tracks pid 3 kills and waits on
it, and a second stop is a no-op on the resulting state. -/
theorem C3_stop_idempotent_witness :
    (stop_node_server true false
        { server_process := some { pid := 3 }, server_port := 5173 }).2 =
      [Event.killed 3, Event.waited 3]
    ∧ stop_node_server false true
        (stop_node_server true false
          { server_process := some { pid := 3 }, server_port := 5173 }).1 =
      ((stop_node_server true false
          { server_process := some { pid := 3 }, server_port := 5173 }).1,
        []) :=
  ⟨(C3_stop_idempotent true false false true
      { server_process := some { pid := 3 }, server_port := 5173 }).2.2.1
      { pid := 3 } rfl,
    (C3_stop_idempotent true false false true
      { server_process := some { pid := 3 }, server_port := 5173 }).2.2.2.2⟩

/-- C4: `get_server_port` has no inputs and no failure mode: it reads
the `SERVER_PORT` slot.  On the initial state (before any start) it
returns the default 5173; after any `start_node_server` call from a
state whose port is still the default it returns the same 5173 —
unconditionally, so in particular both when the call never succeeded
(spawn error or readiness timeout, i.e. it returned an error) and
when it returned `Ok`. -/
theorem C4_get_server_port (env : Env) (s : SupState)
    (hs : s.server_port = 5173) :
    get_server_port initState = 5173
    ∧ get_server_port (start_node_server env s).2.1 = 5173
    ∧ (∀ msg, (start_node_server env s).1 = Except.error msg →
        get_server_port (start_node_server env s).2.1 = 5173)
    ∧ (∀ p, (start_node_server env s).1 = Except.ok p →
        get_server_port (start_node_server env s).2.1 = 5173) := by
  have hmain : get_server_port (start_node_server env s).2.1 = 5173 := by
    cases hres : resolve_server_script env with
    | error e =>
        simpa [start_node_server, hres, get_server_port] using hs
    | ok script =>
        cases hsp : env.spawn script with
        | error e =>
            simpa [start_node_server, hres, hsp, get_server_port] using hs
        | ok c => simp [start_node_server, hres, hsp, get_server_port]
  exact ⟨rfl, hmain, fun _ _ => hmain, fun _ _ => hmain⟩

/-- C4 witness: the query returns 5173 on the initial state, after a
start whose spawn failed (`envSpawnFail`), after a start that timed
out waiting for readiness (`envTimeout`), and after a successful
start (`envReady`). -/
theorem C4_get_server_port_witness :
    get_server_port initState = 5173
    ∧ get_server_port (start_node_server envSpawnFail initState).2.1 = 5173
    ∧ get_server_port (start_node_server envTimeout initState).2.1 = 5173
    ∧ get_server_port (start_node_server envReady initState).2.1 = 5173 :=
  ⟨(C4_get_server_port envSpawnFail initState rfl).1,
    (C4_get_server_port envSpawnFail initState rfl).2.2.1
      "Failed to start Node server: No such file or directory (os error 2)"
      rfl,
    (C4_get_server_port envTimeout initState rfl).2.2.1 timeout_err
      (by
        rw [start_spawn_ok envTimeout initState "../../electron/server.mjs"
          { pid := 7 } rfl rfl]
        exact pollLoop_timeout envTimeout.probe envTimeout.req_ms 5173
          (fun _ _ => rfl)),
    (C4_get_server_port envReady initState rfl).2.2.2 5173
      (by rw [start_first_ok envReady initState "../../electron/server.mjs"
        { pid := 7 } rfl rfl rfl])⟩

/-- C5: path resolution is a pure two-candidate existence check: in
development mode it is the fixed relative script path whatever the
executable location; in production mode it is the bundled-resources
candidate when that path exists, else the sibling-bin candidate. -/
theorem C5_path_resolution (env : Env) (dir : String) :
    (env.debug = true →
      resolve_server_script env = Except.ok "../../electron/server.mjs")
    ∧ (env.debug = false → env.current_exe_dir = Except.ok dir →
        resolve_server_script env = Except.ok
          (if env.path_exists (dir ++ "/../Resources/bin/server.mjs")
           then dir ++ "/../Resources/bin/server.mjs"
           else dir ++ "/bin/server.mjs")) := by
  constructor
  · intro h
    simp [resolve_server_script, h]
  · intro h hdir
    by_cases hex : env.path_exists (dir ++ "/../Resources/bin/server.mjs") <;>
      simp [resolve_server_script, h, hdir, hex]

/-- C5 witness: the dev-mode environment resolves to the fixed
relative path and the production environment with an existing
resources candidate resolves to the bundled-resources path. -/
theorem C5_path_resolution_witness :
    resolve_server_script envReady = Except.ok "../../electron/server.mjs"
    ∧ resolve_server_script envProd =
        Except.ok
          "/Applications/OniOS.app/Contents/MacOS/../Resources/bin/server.mjs" :=
  ⟨(C5_path_resolution envReady "").1 rfl,
    by
      have h := (C5_path_resolution envProd
        "/Applications/OniOS.app/Contents/MacOS").2 rfl rfl
      simpa [envProd] using h⟩

/-- C6: whenever `start_node_server` returns `Ok`, the new state holds
exactly the spawned child in the `SERVER_PROCESS` slot and 5173 in the
`SERVER_PORT` slot, and the ghost trace records that single spawn. -/
theorem C6_success_postcondition (env : Env) (s : SupState) (p : Nat)
    (h : (start_node_server env s).1 = Except.ok p) :
    ∃ c script,
      resolve_server_script env = Except.ok script
      ∧ env.spawn script = Except.ok c
      ∧ (start_node_server env s).2.1 =
          { server_process := some c, server_port := 5173 }
      ∧ (start_node_server env s).2.2 = [Event.spawned c.pid] := by
  cases hres : resolve_server_script env with
  | error e => simp [start_node_server, hres] at h
  | ok script =>
      cases hsp : env.spawn script with
      | error e => simp [start_node_server, hres, hsp] at h
      | ok c =>
          exact ⟨c, script, rfl, hsp, by simp [start_node_server, hres, hsp],
            by simp [start_node_server, hres, hsp]⟩

/-- C6 witness: in `envReady` the success postcondition holds. -/
theorem C6_success_postcondition_witness :
    ∃ c script,
      resolve_server_script envReady = Except.ok script
      ∧ envReady.spawn script = Except.ok c
      ∧ (start_node_server envReady initState).2.1 =
          { server_process := some c, server_port := 5173 }
      ∧ (start_node_server envReady initState).2.2 =
          [Event.spawned c.pid] :=
  C6_success_postcondition envReady initState 5173
    (by rw [start_first_ok envReady initState "../../electron/server.mjs"
      { pid := 7 } rfl rfl rfl])

/-- C7: when the very first probe answers with a success status,
`start_node_server` returns `Ok 5173` and the poll loop issued exactly
one probe, returning at elapsed time `poll_interval_ms + req_ms 0`
milliseconds — one poll cycle (the 300 ms sleep plus the one request). -/
theorem C7_first_poll_cycle (env : Env) (s : SupState) (script : String) (c : Child)
    (hres : resolve_server_script env = Except.ok script)
    (hsp : env.spawn script = Except.ok c)
    (hp : resp_is_success (env.probe 0) = true) :
    (start_node_server env s).1 = Except.ok 5173
    ∧ pollLoopT env.probe env.req_ms 5173 0 0 =
        (Except.ok 5173, 1, poll_interval_ms + env.req_ms 0) := by
  have h := pollLoopT_ok env.probe env.req_ms 5173 0 0 0
    (fun k hk => absurd hk (Nat.not_lt_zero k))
    (by simpa using hp)
    (by simp [partialElapsed, timeout_ms])
  constructor
  · rw [start_first_ok env s script c hres hsp hp]
  · rw [h]
    simp [partialElapsed]

/-- C7 witness: in `envReady` the first probe succeeds, the call
returns the port, and the loop stopped after one probe at 300 ms. -/
theorem C7_first_poll_cycle_witness :
    (start_node_server envReady initState).1 = Except.ok 5173
    ∧ pollLoopT envReady.probe envReady.req_ms 5173 0 0 =
        (Except.ok 5173, 1, poll_interval_ms + envReady.req_ms 0) :=
  C7_first_poll_cycle envReady initState "../../electron/server.mjs"
    { pid := 7 } rfl rfl rfl

/-- C8: a second `start_node_server` on a state that already tracks a
live child silently overwrites the slot with the new child on a
successful spawn: the trace holds only the new spawn, and no kill (and
no wait) of the previously tracked process ever occurs. -/
theorem C8_start_overwrites (env : Env) (s : SupState) (c0 : Child)
    (script : String) (c1 : Child)
    (hprev : s.server_process = some c0)
    (hres : resolve_server_script env = Except.ok script)
    (hsp : env.spawn script = Except.ok c1) :
    (start_node_server env s).2.1.server_process = some c1
    ∧ (start_node_server env s).2.2 = [Event.spawned c1.pid]
    ∧ ∀ p, Event.killed p ∉ (start_node_server env s).2.2 := by
  rw [start_spawn_ok env s script c1 hres hsp]
  simp

/-- C8 witness: starting over a state that tracks pid 3 leaves pid 7
tracked and kills nothing. -/
theorem C8_start_overwrites_witness :
    (start_node_server envReady
        { server_process := some { pid := 3 }, server_port := 5173 }).2.1.server_process =
      some { pid := 7 }
    ∧ (start_node_server envReady
        { server_process := some { pid := 3 }, server_port := 5173 }).2.2 =
      [Event.spawned 7]
    ∧ ∀ p, Event.killed p ∉ (start_node_server envReady
        { server_process := some { pid := 3 }, server_port := 5173 }).2.2 :=
  C8_start_overwrites envReady
    { server_process := some { pid := 3 }, server_port := 5173 }
    { pid := 3 } "../../electron/server.mjs" { pid := 7 } rfl rfl rfl

/-- C9: when the spawn succeeds but every probe issued inside the
budget fails, `start_node_server` returns the timeout error while the
spawned child is still tracked in the `SERVER_PROCESS` slot — the
failing call neither kills the child nor clears the slot. -/
theorem C9_timeout_keeps_handle (env : Env) (s : SupState) (script : String) (c : Child)
    (hres : resolve_server_script env = Except.ok script)
    (hsp : env.spawn script = Except.ok c)
    (hall : ∀ k, elapsedBefore env.req_ms k < timeout_ms →
      resp_is_success (env.probe k) = false) :
    (start_node_server env s).1 = Except.error timeout_err
    ∧ (start_node_server env s).2.1.server_process = some c
    ∧ ∀ p, Event.killed p ∉ (start_node_server env s).2.2 := by
  rw [start_spawn_ok env s script c hres hsp]
  refine ⟨pollLoop_timeout env.probe env.req_ms 5173 hall, by simp, by simp⟩

/-- C9 witness: in `envTimeout` the call times out with pid 7 still
tracked and never killed. -/
theorem C9_timeout_keeps_handle_witness :
    (start_node_server envTimeout initState).1 = Except.error timeout_err
    ∧ (start_node_server envTimeout initState).2.1.server_process =
        some { pid := 7 }
    ∧ ∀ p, Event.killed p ∉ (start_node_server envTimeout initState).2.2 :=
  C9_timeout_keeps_handle envTimeout initState "../../electron/server.mjs"
    { pid := 7 } rfl rfl (fun _ _ => rfl)

/-- The `SERVER_PORT` slot is preserved at 5173 by every operation. -/
theorem runOps_port_invariant :
    ∀ (ops : List Op) (s : SupState), s.server_port = 5173 →
      (runOps s ops).server_port = 5173 := by
  intro ops
  induction ops with
  | nil => intro s hs; simpa [runOps] using hs
  | cons op rest ih =>
      intro s hs
      cases op with
      | op_start env =>
          rw [runOps]
          apply ih
          cases hres : resolve_server_script env with
          | error e => simpa [start_node_server, hres] using hs
          | ok script =>
              cases hsp : env.spawn script with
              | error e => simpa [start_node_server, hres, hsp] using hs
              | ok c => simp [start_node_server, hres, hsp]
      | op_stop k w =>
          rw [runOps]
          apply ih
          cases hsp : s.server_process <;>
            simpa [stop_node_server, hsp] using hs

/-- C10: in every state reachable from the initial state by any
sequence of start and stop operations, `get_server_port` returns
exactly 5173: the slot starts at 5173 and the only write to it stores
the same constant. -/
theorem C10_port_always_5173 (ops : List Op) :
    get_server_port (runOps initState ops) = 5173 :=
  runOps_port_invariant ops initState rfl
